import Mathlib

/-!
Verification of the ClauDEX persistent-memory engine against its design
specification.  The repository ships only the SDK entry point
(src/sdk/entry.ts), the user-prompt hook handler and install tooling; the
core components (ObservationBuffer, RecoveryManager, ConversationContinuity
grouper, HybridRetriever, MemoryStore) are referenced by those callers but
their implementation files are not in the source snapshot, so they are
modelled here from the specification text, as marked on each definition.
-/

namespace ClauDEX

/-- One recorded tool-use event (data model section 3 of the design). -/
structure Observation where
  id : Nat
  session_id : Nat
  kind : String
  payload : String
  created_at : Nat
  deriving DecidableEq, Repr

/-- Modelled from the spec: the in-memory state of the StagingBuffer
(ObservationBuffer in the code, whose implementation file is missing from
the snapshot).  It holds the ordered pending segment, the durable store
contents, the durable checkpoint marker, the configured checkpoint
interval, and — for accounting — the history of flushed batches. -/
structure BufState where
  pending : List Observation
  store : List Observation
  marker : Nat
  checkpointInterval : Nat
  flushedBatches : List (List Observation)
  deriving Repr

/-- The id of the last element of a list of observations (0 for empty). -/
def lastId (l : List Observation) : Nat :=
  match l.getLast? with
  | some o => o.id
  | none => 0

/-- Modelled from the spec: a successful flush atomically persists all
pending entries to the store in one transaction, advances the durable
checkpoint marker to the last persisted id, records the batch, and clears
the pending segment; it returns the count written, and a flush on an empty
buffer is a no-op returning 0. -/
def flush (st : BufState) : BufState × Nat :=
  if st.pending = [] then (st, 0)
  else
    ({ st with
        store := st.store ++ st.pending
        marker := lastId st.pending
        flushedBatches := st.flushedBatches ++ [st.pending]
        pending := [] },
      st.pending.length)

/-- Modelled from the spec: a flush whose persistence transaction may fail.
On failure the pending entries remain in memory, the checkpoint marker is
not advanced and no batch is recorded (the error is logged and the next
trigger retries the same batch). -/
def flushAttempt (txOk : Bool) (st : BufState) : BufState × Nat :=
  if txOk then flush st else (st, 0)

/-- Modelled from the spec: append adds the observation to the ordered
in-memory sequence; auto-flush fires when the pending count reaches the
configured checkpoint interval. -/
def append (st : BufState) (o : Observation) : BufState :=
  let st' := { st with pending := st.pending ++ [o] }
  if st'.checkpointInterval ≤ st'.pending.length then (flush st').1 else st'

/-- A fresh buffer with checkpoint interval K, as constructed at startup. -/
def initBuf (K : Nat) : BufState :=
  { pending := [], store := [], marker := 0, checkpointInterval := K,
    flushedBatches := [] }

/-- A sequence of append calls, in order. -/
def appendAll (st : BufState) (os : List Observation) : BufState :=
  os.foldl append st

/-- From src/sdk/entry.ts line 47: the checkpoint interval is the configured
value when present, otherwise 20 (config.buffer?.checkpointInterval ?? 20). -/
def resolveCheckpointInterval (configured : Option Nat) : Nat :=
  configured.getD 20

/-- A concrete observation used in witnesses and counterexamples. -/
def obs (i : Nat) : Observation :=
  { id := i, session_id := 0, kind := "tool_use", payload := "p", created_at := i }

lemma appendAll_cons (st : BufState) (o : Observation) (os : List Observation) :
    appendAll st (o :: os) = appendAll (append st o) os := rfl

/-- When the pending segment reaches the checkpoint interval, append flushes. -/
lemma append_full (st : BufState) (o : Observation)
    (h : st.checkpointInterval ≤ st.pending.length + 1) :
    append st o =
      { pending := []
        store := st.store ++ (st.pending ++ [o])
        marker := lastId (st.pending ++ [o])
        checkpointInterval := st.checkpointInterval
        flushedBatches := st.flushedBatches ++ [st.pending ++ [o]] } := by
  simp [append, flush, h]

/-- Below the checkpoint interval, append only extends the pending segment. -/
lemma append_notFull (st : BufState) (o : Observation)
    (h : ¬ st.checkpointInterval ≤ st.pending.length + 1) :
    append st o = { st with pending := st.pending ++ [o] } := by
  simp [append, h]

/-- The central accounting invariant of the staging buffer: running a list of
appends preserves the interval, loses and duplicates nothing (flushed batches
followed by the still-pending tail reproduce the appended sequence), performs
(pending + new) / K flushes and leaves (pending + new) mod K entries pending. -/
lemma appendAll_main (os : List Observation) :
    ∀ st : BufState, 0 < st.checkpointInterval →
      st.pending.length < st.checkpointInterval →
      (appendAll st os).checkpointInterval = st.checkpointInterval ∧
      (appendAll st os).flushedBatches.flatten ++ (appendAll st os).pending
        = st.flushedBatches.flatten ++ (st.pending ++ os) ∧
      (appendAll st os).flushedBatches.length
        = st.flushedBatches.length
            + (st.pending.length + os.length) / st.checkpointInterval ∧
      (appendAll st os).pending.length
        = (st.pending.length + os.length) % st.checkpointInterval := by
  induction os with
  | nil =>
    intro st hK hlt
    refine ⟨rfl, by simp [appendAll], ?_, ?_⟩
    · simp [appendAll, Nat.div_eq_of_lt hlt]
    · simp [appendAll, Nat.mod_eq_of_lt hlt]
  | cons o os ih =>
    intro st hK hlt
    rw [appendAll_cons]
    by_cases hfull : st.checkpointInterval ≤ st.pending.length + 1
    · rw [append_full st o hfull]
      obtain ⟨h1, h2, h3, h4⟩ :=
        ih { pending := []
             store := st.store ++ (st.pending ++ [o])
             marker := lastId (st.pending ++ [o])
             checkpointInterval := st.checkpointInterval
             flushedBatches := st.flushedBatches ++ [st.pending ++ [o]] } hK hK
      refine ⟨by simpa using h1, ?_, ?_, ?_⟩
      · rw [h2]; simp
      · rw [h3]
        simp only [List.length_append, List.length_cons, List.length_nil,
          Nat.zero_add]
        have harg : st.pending.length + (os.length + 1)
            = st.checkpointInterval + os.length := by omega
        rw [harg, Nat.add_div_left _ hK]
        omega
      · rw [h4]
        simp only [List.length_nil, List.length_cons, Nat.zero_add]
        have harg : st.pending.length + (os.length + 1)
            = st.checkpointInterval + os.length := by omega
        rw [harg, Nat.add_mod_left]
    · rw [append_notFull st o hfull]
      obtain ⟨h1, h2, h3, h4⟩ :=
        ih { st with pending := st.pending ++ [o] } hK
          (by simp only [List.length_append, List.length_cons, List.length_nil]
              omega)
      refine ⟨by simpa using h1, ?_, ?_, ?_⟩
      · rw [h2]; simp
      · rw [h3]
        simp only [List.length_append, List.length_cons, List.length_nil]
        have harg : st.pending.length + (os.length + 1)
            = st.pending.length + 1 + os.length := by omega
        rw [harg]
      · rw [h4]
        simp only [List.length_append, List.length_cons, List.length_nil]
        have harg : st.pending.length + (os.length + 1)
            = st.pending.length + 1 + os.length := by omega
        rw [harg]

/-- A concrete nonempty buffer state used by witnesses. -/
def demoSt : BufState :=
  { pending := [obs 1], store := [], marker := 0, checkpointInterval := 20,
    flushedBatches := [] }

/-- Claim C1, as stated, fails when the checkpoint interval does not divide
the number of appends: with K = 2 and three appends exactly one automatic
flush occurs (⌊3/2⌋ = 1, as claimed) but the union of the flushed batches
omits the third observation, so it does not equal the appended set. -/
theorem C1_counterexample :
    (appendAll (initBuf 2) [obs 1, obs 2, obs 3]).flushedBatches.length = 3 / 2 ∧
    ¬ obs 3 ∈ (appendAll (initBuf 2) [obs 1, obs 2, obs 3]).flushedBatches.flatten := by
  decide

/-- Claim C1 (amended): for every sequence of N append calls with checkpoint
interval K greater than 0 and no explicit flush, exactly ⌊N/K⌋ automatic flushes
occur; the flushed batches concatenated with the still-pending tail reproduce
the appended sequence exactly (each observation exactly once, no loss, no
duplication), with N mod K observations left pending rather than flushed; the
default checkpoint interval is 20. -/
theorem C1_staging_buffer_accounting (K : Nat) (hK : 0 < K)
    (os : List Observation) :
    (appendAll (initBuf K) os).flushedBatches.length = os.length / K ∧
    (appendAll (initBuf K) os).flushedBatches.flatten
        ++ (appendAll (initBuf K) os).pending = os ∧
    (appendAll (initBuf K) os).pending.length = os.length % K ∧
    resolveCheckpointInterval none = 20 := by
  obtain ⟨h1, h2, h3, h4⟩ := appendAll_main os (initBuf K) hK hK
  refine ⟨?_, ?_, ?_, rfl⟩
  · simpa [initBuf] using h3
  · simpa using h2
  · simpa [initBuf] using h4

/-- Witness for C1 at K = 2 and three concrete observations. -/
theorem C1_staging_buffer_accounting_witness :
    0 < 2 ∧
    ((appendAll (initBuf 2) [obs 1, obs 2, obs 3]).flushedBatches.length
        = [obs 1, obs 2, obs 3].length / 2 ∧
      (appendAll (initBuf 2) [obs 1, obs 2, obs 3]).flushedBatches.flatten
          ++ (appendAll (initBuf 2) [obs 1, obs 2, obs 3]).pending
        = [obs 1, obs 2, obs 3] ∧
      (appendAll (initBuf 2) [obs 1, obs 2, obs 3]).pending.length
        = [obs 1, obs 2, obs 3].length % 2 ∧
      resolveCheckpointInterval none = 20) :=
  ⟨by decide, C1_staging_buffer_accounting 2 (by decide) [obs 1, obs 2, obs 3]⟩

/-- Claim C2: if the persistence transaction inside flush fails, the whole
buffer state (pending entries, checkpoint marker, store) is unchanged and the
reported count is 0; the next successful flush trigger then persists exactly
the same batch that failed, with its full count. -/
theorem C2_flush_failure_state_unchanged (st : BufState)
    (h : st.pending ≠ []) :
    (flushAttempt false st).1 = st ∧
    (flushAttempt false st).2 = 0 ∧
    ((flushAttempt true (flushAttempt false st).1).1).flushedBatches
        = st.flushedBatches ++ [st.pending] ∧
    (flushAttempt true (flushAttempt false st).1).2 = st.pending.length := by
  refine ⟨rfl, rfl, ?_, ?_⟩ <;> simp [flushAttempt, flush, h]

/-- Witness for C2 on a concrete one-entry buffer. -/
theorem C2_flush_failure_state_unchanged_witness :
    demoSt.pending ≠ [] ∧
    ((flushAttempt false demoSt).1 = demoSt ∧
      (flushAttempt false demoSt).2 = 0 ∧
      ((flushAttempt true (flushAttempt false demoSt).1).1).flushedBatches
          = demoSt.flushedBatches ++ [demoSt.pending] ∧
      (flushAttempt true (flushAttempt false demoSt).1).2
          = demoSt.pending.length) :=
  ⟨by decide, C2_flush_failure_state_unchanged demoSt (by decide)⟩

/-- The graded action of topic-shift detection (shared/types; used by the
hook in src/unnamed/part_001). -/
inductive Action
  | trust
  | ask
  | ignore
  deriving DecidableEq, Repr

/-- Rank of an action on the same-topic-confidence scale: trust = 0 (new
topic), ask = 1 (ambiguous), ignore = 2 (same topic). -/
def Action.rank : Action → Nat
  | .trust => 0
  | .ask => 1
  | .ignore => 2

/-- Modelled from the spec: the threshold mapping of ConversationContinuity
(the grouper implementation file is missing from the snapshot): score at or
above T_high yields ignore, between T_low and T_high yields ask, below T_low
yields trust. -/
def classifyScore (Tlow Thigh s : ℚ) : Action :=
  if Thigh ≤ s then .ignore
  else if Tlow ≤ s then .ask
  else .trust

/-- Session status (data model section 3). -/
inductive SessionStatus
  | active
  | ended
  | crashed
  deriving DecidableEq, Repr

/-- One assistant run (data model section 3). -/
structure Session where
  id : Nat
  external_session_ref : String
  project_id : Nat
  started_at : Nat
  ended_at : Option Nat
  status : SessionStatus
  deriving DecidableEq, Repr

/-- One registered codebase root (data model section 3). -/
structure Project where
  id : Nat
  root_path : String
  name : String
  deriving DecidableEq, Repr

/-- The slice of a conversation the hook reads (result.conversation.topic in
src/unnamed/part_001). -/
structure ConversationView where
  topic : String
  deriving DecidableEq, Repr

/-- What handleTopicShift resolves to, as consumed by the hook in
src/unnamed/part_001: action, score, optional suggestion, conversation. -/
structure ShiftOutcome where
  action : Action
  score : ℚ
  suggestion : Option String
  conversation : ConversationView
  deriving DecidableEq, Repr

/-- The result shape of the user-prompt hook (src/unnamed/part_001
lines 10-13). -/
structure UserPromptResult where
  suggestion : Option String
  action : Action
  deriving DecidableEq, Repr

/-- The payload delivered by the host on a prompt event, restricted to the
fields the hook reads. -/
structure HookInput where
  prompt : Option String
  session_id : Option String
  deriving DecidableEq, Repr

/-- JavaScript (x || null) on an optional string: the empty string is falsy
and collapses to null (src/unnamed/part_001 line 42). -/
def jsOrNull (o : Option String) : Option String :=
  match o with
  | some s => if s = "" then none else some s
  | none => none

/-- From src/unnamed/part_001: the user-prompt hook handler.  The database
lookups and the topic-shift collaborator are passed explicitly; a rejected
promise from handleTopicShift is the Except.error case, which the
try/catch of lines 29-55 maps to the ignore action.  The source guard at
line 18 (!prompt or !input.session_id) reads the prompt with a default of
the empty string. -/
def handleUserPrompt
    (getSessionByClaudeId : String → Option Session)
    (getProjectById : Nat → Option Project)
    (topicShift : Nat → String → Nat → String → Except String ShiftOutcome)
    (input : HookInput) : UserPromptResult :=
  if input.prompt.getD "" = "" then { suggestion := none, action := .ignore }
  else
    match input.session_id with
    | none => { suggestion := none, action := .ignore }
    | some sid =>
      match getSessionByClaudeId sid with
      | none => { suggestion := none, action := .ignore }
      | some session =>
        match getProjectById session.project_id with
        | none => { suggestion := none, action := .ignore }
        | some project =>
          match topicShift session.id project.root_path project.id
              (input.prompt.getD "") with
          | .error _ => { suggestion := none, action := .ignore }
          | .ok r =>
            match r.action with
            | .ignore => { suggestion := none, action := .ignore }
            | .ask => { suggestion := jsOrNull r.suggestion, action := .ask }
            | .trust => { suggestion := none, action := .trust }

/-- Modelled from the spec: the scoring path of handleTopicShift in the
missing grouper module.  The semantic-representation computation may fail
(unavailable embedding dependency or timeout); its outcome is passed as an
optional similarity score.  On failure the function degrades to the ignore
action with no state change; on success it maps the score through the
thresholds, attaching a human-readable suggestion in the ask case. -/
def handleTopicShift (Tlow Thigh : ℚ) (conv : ConversationView)
    (embedOutcome : Option ℚ) : ShiftOutcome :=
  match embedOutcome with
  | none => { action := .ignore, score := 0, suggestion := none,
              conversation := conv }
  | some s =>
    match classifyScore Tlow Thigh s with
    | .ignore => { action := .ignore, score := s, suggestion := none,
                   conversation := conv }
    | .ask => { action := .ask, score := s,
                suggestion := some ("Possible topic shift away from " ++ conv.topic),
                conversation := conv }
    | .trust => { action := .trust, score := s, suggestion := none,
                  conversation := conv }

/-- Modelled from the spec: append with the possibility that the auto-flush
transaction inside it fails.  The caller never sees the failure: the
observation is staged in memory either way and the entries of a failed
flush stay pending for the next trigger. -/
def appendSafe (txOk : Bool) (st : BufState) (o : Observation) : BufState :=
  let st' := { st with pending := st.pending ++ [o] }
  if st'.checkpointInterval ≤ st'.pending.length then (flushAttempt txOk st').1
  else st'

/-- Modelled from the spec: the merge step of HybridRetriever.search.  An
entity found by both branches combines its two normalized scores with the
configured weights; an entity found by only one branch gets its single
normalized score multiplied by the coverage penalty. -/
def mergeScore (wk wv penalty : ℚ) (kw vec : Option ℚ) : Option ℚ :=
  match kw, vec with
  | some a, some b => some (wk * a + wv * b)
  | some a, none => some (penalty * a)
  | none, some b => some (penalty * b)
  | none, none => none

/-- The normalized score a candidate list assigns to an entity id. -/
def lookupScore (l : List (Nat × ℚ)) (i : Nat) : Option ℚ :=
  (l.find? (fun p => p.1 = i)).map (fun p => p.2)

/-- Modelled from the spec: merge the keyword and vector candidate sets by
entity identity, scoring each entity through the weighted-sum /
coverage-penalty rule. -/
def mergeCandidates (wk wv penalty : ℚ) (a b : List (Nat × ℚ)) :
    List (Nat × ℚ) :=
  ((a.map Prod.fst ++ b.map Prod.fst).dedup).filterMap
    (fun i => (mergeScore wk wv penalty (lookupScore a i) (lookupScore b i)).map
      (fun s => (i, s)))

/-- Modelled from the spec: the top level of HybridRetriever.search over the
outcomes of its two index branches (none meaning that index is unavailable).
An unavailable branch degrades to single-mode ranking with the degraded flag
set instead of raising. -/
def search (wk wv penalty : ℚ) (kw vec : Option (List (Nat × ℚ))) :
    List (Nat × ℚ) × Bool :=
  match kw, vec with
  | some a, some b => (mergeCandidates wk wv penalty a b, false)
  | some a, none => (a, true)
  | none, some b => (b, true)
  | none, none => ([], true)

/-- Claim C3: with fixed thresholds T_low < T_high, the action is ignore
exactly when the score is at least T_high, ask exactly when it lies in
[T_low, T_high), and trust exactly when it is below T_low; and the action
rank is monotone in the score, so sweeping the score from 1.0 down to 0.0
passes ignore, ask, trust in that order without ever reversing. -/
theorem C3_topic_shift_monotone (Tlow Thigh : ℚ) (hT : Tlow < Thigh)
    (s t : ℚ) (hst : s ≤ t) :
    (classifyScore Tlow Thigh s = .ignore ↔ Thigh ≤ s) ∧
    (classifyScore Tlow Thigh s = .ask ↔ Tlow ≤ s ∧ s < Thigh) ∧
    (classifyScore Tlow Thigh s = .trust ↔ s < Tlow) ∧
    (classifyScore Tlow Thigh s).rank ≤ (classifyScore Tlow Thigh t).rank := by
  refine ⟨?_, ?_, ?_, ?_⟩
  · by_cases h1 : Thigh ≤ s
    · simp [classifyScore, h1]
    · by_cases h2 : Tlow ≤ s <;> simp [classifyScore, h1, h2]
  · by_cases h1 : Thigh ≤ s
    · simp only [classifyScore, if_pos h1]
      constructor
      · intro h; exact absurd h (by decide)
      · intro h; exact absurd h1 (not_le.mpr h.2)
    · by_cases h2 : Tlow ≤ s
      · simp [classifyScore, h1, h2, lt_of_not_ge h1]
      · simp only [classifyScore, if_neg h1, if_neg h2]
        constructor
        · intro h; exact absurd h (by decide)
        · intro h; exact absurd h.1 h2
  · by_cases h1 : Thigh ≤ s
    · simp only [classifyScore, if_pos h1]
      constructor
      · intro h; exact absurd h (by decide)
      · intro h; exact absurd h1 (not_le.mpr (h.trans hT))
    · by_cases h2 : Tlow ≤ s
      · simp only [classifyScore, if_neg h1, if_pos h2]
        constructor
        · intro h; exact absurd h (by decide)
        · intro h; exact absurd h2 (not_le.mpr h)
      · simp [classifyScore, h1, h2, lt_of_not_ge h2]
  · unfold classifyScore
    by_cases h1 : Thigh ≤ s
    · rw [if_pos h1, if_pos (le_trans h1 hst)]
    · rw [if_neg h1]
      by_cases h2 : Tlow ≤ s
      · rw [if_pos h2]
        by_cases h3 : Thigh ≤ t
        · rw [if_pos h3]; decide
        · rw [if_neg h3, if_pos (le_trans h2 hst)]
      · rw [if_neg h2]
        exact Nat.zero_le _

/-- Witness for C3 at the scenario-B thresholds 0.4 and 0.75 with scores
0.55 and 0.92. -/
theorem C3_topic_shift_monotone_witness :
    (2 : ℚ) / 5 < 3 / 4 ∧ (11 : ℚ) / 20 ≤ 23 / 25 ∧
    ((classifyScore (2 / 5) (3 / 4) (11 / 20) = .ignore ↔ (3 : ℚ) / 4 ≤ 11 / 20) ∧
     (classifyScore (2 / 5) (3 / 4) (11 / 20) = .ask
        ↔ (2 : ℚ) / 5 ≤ 11 / 20 ∧ (11 : ℚ) / 20 < 3 / 4) ∧
     (classifyScore (2 / 5) (3 / 4) (11 / 20) = .trust ↔ (11 : ℚ) / 20 < 2 / 5) ∧
     (classifyScore (2 / 5) (3 / 4) (11 / 20)).rank
        ≤ (classifyScore (2 / 5) (3 / 4) (23 / 25)).rank) :=
  ⟨by norm_num, by norm_num,
    C3_topic_shift_monotone (2 / 5) (3 / 4) (by norm_num) (11 / 20) (23 / 25)
      (by norm_num)⟩

/-- Claim C4: a failure computing the semantic representation makes
handleTopicShift return the ignore action rather than raising; the
user-prompt hook never propagates a topic-shift failure (with a collaborator
that always rejects it still returns the silent ignore result for every
input); a failed auto-flush transaction inside append is invisible to the
caller, whose observation is staged in memory regardless; and search with an
unavailable index degrades to single-mode results with the degraded flag
instead of raising. -/
theorem C4_interactive_path_degrades :
    (∀ (Tlow Thigh : ℚ) (conv : ConversationView),
      (handleTopicShift Tlow Thigh conv none).action = .ignore) ∧
    (∀ (gs : String → Option Session) (gp : Nat → Option Project)
        (e : String) (input : HookInput),
      handleUserPrompt gs gp (fun _ _ _ _ => .error e) input
        = { suggestion := none, action := .ignore }) ∧
    (∀ (st : BufState) (o : Observation),
      (appendSafe false st o).pending = st.pending ++ [o]) ∧
    (∀ (wk wv penalty : ℚ) (a b : List (Nat × ℚ)),
      search wk wv penalty (some a) none = (a, true) ∧
      search wk wv penalty none (some b) = (b, true)) := by
  refine ⟨?_, ?_, ?_, ?_⟩
  · intro Tlow Thigh conv
    rfl
  · intro gs gp e input
    unfold handleUserPrompt
    split
    · rfl
    · cases input.session_id with
      | none => rfl
      | some sid =>
        dsimp only
        cases gs sid with
        | none => rfl
        | some session =>
          dsimp only
          cases gp session.project_id with
          | none => rfl
          | some project => rfl
  · intro st o
    simp only [appendSafe, flushAttempt, Bool.false_eq_true, if_false]
    split <;> rfl
  · intro wk wv penalty a b
    exact ⟨rfl, rfl⟩

/-- Claim C10: whenever the prompt is empty or absent, the session id is
absent, no session matches it, or no project matches the session's
project_id, the hook returns the silent ignore result, and the result does
not depend on the topic-shift collaborator at all — detection is never
invoked and no conversation state can be touched on these paths. -/
theorem C10_hook_guard_paths (gs : String → Option Session)
    (gp : Nat → Option Project)
    (ts tsAlt : Nat → String → Nat → String → Except String ShiftOutcome)
    (input : HookInput)
    (h : input.prompt.getD "" = "" ∨ input.session_id = none ∨
      (∃ sid, input.session_id = some sid ∧ gs sid = none) ∨
      (∃ sid s, input.session_id = some sid ∧ gs sid = some s ∧
        gp s.project_id = none)) :
    handleUserPrompt gs gp ts input = { suggestion := none, action := .ignore } ∧
    handleUserPrompt gs gp ts input = handleUserPrompt gs gp tsAlt input := by
  have key : ∀ tsx : Nat → String → Nat → String → Except String ShiftOutcome,
      handleUserPrompt gs gp tsx input
        = { suggestion := none, action := .ignore } := by
    intro tsx
    unfold handleUserPrompt
    rcases h with hp | hsid | ⟨sid, hsid, hgs⟩ | ⟨sid, s, hsid, hgs, hgp⟩
    · rw [if_pos hp]
    · split
      · rfl
      · rw [hsid]
    · split
      · rfl
      · rw [hsid]
        simp [hgs]
    · split
      · rfl
      · rw [hsid]
        simp [hgs, hgp]
  exact ⟨key ts, (key ts).trans (key tsAlt).symm⟩

/-- A lookup table with no sessions, used in the C10 witness. -/
def noSessions : String → Option Session := fun _ => none

/-- A lookup table with no projects, used in the C10 witness. -/
def noProjects : Nat → Option Project := fun _ => none

/-- A topic-shift collaborator that always rejects. -/
def failShift : Nat → String → Nat → String → Except String ShiftOutcome :=
  fun _ _ _ _ => .error "embedding unavailable"

/-- A topic-shift collaborator that always answers trust. -/
def trustShift : Nat → String → Nat → String → Except String ShiftOutcome :=
  fun _ _ _ _ => .ok { action := .trust, score := 0, suggestion := none,
                       conversation := { topic := "t" } }

/-- Witness for C10 on an input with no prompt and no session id. -/
theorem C10_hook_guard_paths_witness :
    ((HookInput.mk none none).prompt.getD "" = ""
        ∨ (HookInput.mk none none).session_id = none
        ∨ (∃ sid, (HookInput.mk none none).session_id = some sid
              ∧ noSessions sid = none)
        ∨ (∃ sid s, (HookInput.mk none none).session_id = some sid
              ∧ noSessions sid = some s ∧ noProjects s.project_id = none)) ∧
    (handleUserPrompt noSessions noProjects failShift (HookInput.mk none none)
        = { suggestion := none, action := .ignore } ∧
      handleUserPrompt noSessions noProjects failShift (HookInput.mk none none)
        = handleUserPrompt noSessions noProjects trustShift
            (HookInput.mk none none)) :=
  ⟨Or.inl rfl,
    C10_hook_guard_paths noSessions noProjects failShift trustShift
      (HookInput.mk none none) (Or.inl rfl)⟩

/-- One step of the initEngram startup sequence in src/sdk/entry.ts. -/
inductive InitStep
  | initDb
  | runRecoveryStep
  | detectProject
  | loadConfig
  | createBuffer
  | buildSystemPromptContext
  | registerTools
  | createHooks
  | startWebUI
  | startWatcher
  deriving DecidableEq, Repr

/-- From src/sdk/entry.ts lines 21-105: the order in which initEngram, the
single entry point, performs its startup steps.  Observations are appended
only through the hooks, which are created at the createHooks step around the
buffer created at the createBuffer step. -/
def initEngramTrace : List InitStep :=
  [.initDb, .runRecoveryStep, .detectProject, .loadConfig, .createBuffer,
   .buildSystemPromptContext, .registerTools, .createHooks, .startWebUI,
   .startWatcher]

/-- Claim C5: in the startup sequence of the single entry point, crash
recovery runs exactly once, strictly before the observation buffer is
created and before the hooks through which appends arrive exist — so no
append of the new run is processed before recovery has completed. -/
theorem C5_recovery_before_buffering :
    initEngramTrace.count InitStep.runRecoveryStep = 1 ∧
    initEngramTrace.indexOf InitStep.runRecoveryStep
      < initEngramTrace.indexOf InitStep.createBuffer ∧
    initEngramTrace.indexOf InitStep.createBuffer
      < initEngramTrace.indexOf InitStep.createHooks := by
  decide

/-- Modelled from the spec: RecoveryManager compares the durable checkpoint
marker against the highest Observation id actually committed; a gap means
the previous run died with unflushed in-memory data, so it marks the prior
session crashed and stamps ended_at with the recovery time (the lost tail
itself is memory-only and unrecoverable by design). -/
def runRecovery (marker highestCommitted : Nat) (prior : Session)
    (now : Nat) : Session :=
  if marker < highestCommitted then
    { prior with status := .crashed, ended_at := some now }
  else prior

/-- A concrete prior session used in witnesses. -/
def demoSession : Session :=
  { id := 1, external_session_ref := "c1", project_id := 1, started_at := 0,
    ended_at := none, status := .active }

/-- Claim C6: when the checkpoint marker is below the highest committed
observation id, recovery marks the prior session crashed and sets its
ended_at to the recovery time; and the tail that can be lost is bounded by
one checkpoint interval, since after any run of appends the pending segment
always holds fewer than K observations. -/
theorem C6_recovery_marks_crash (marker highest now : Nat) (prior : Session)
    (hgap : marker < highest) (K : Nat) (hK : 0 < K)
    (os : List Observation) :
    (runRecovery marker highest prior now).status = .crashed ∧
    (runRecovery marker highest prior now).ended_at = some now ∧
    (appendAll (initBuf K) os).pending.length < K := by
  refine ⟨?_, ?_, ?_⟩
  · simp [runRecovery, hgap]
  · simp [runRecovery, hgap]
  · have h := (appendAll_main os (initBuf K) hK hK).2.2.2
    rw [h]
    exact Nat.mod_lt _ hK

/-- Witness for C6 with a marker of 3 against a highest committed id of 5. -/
theorem C6_recovery_marks_crash_witness :
    3 < 5 ∧ 0 < 2 ∧
    ((runRecovery 3 5 demoSession 100).status = .crashed ∧
      (runRecovery 3 5 demoSession 100).ended_at = some 100 ∧
      (appendAll (initBuf 2) [obs 1]).pending.length < 2) :=
  ⟨by decide, by decide,
    C6_recovery_marks_crash 3 5 100 demoSession (by decide) 2 (by decide)
      [obs 1]⟩

/-- Claim C7: a dual-signal entity scores the weighted sum of its two
scores, a single-signal entity scores penalty times its one score; with
weights summing to 1 and penalty below 1, equal raw scores s give the
dual-signal entity the combined score s and the single-signal entity
penalty·s ≤ s, so the dual-signal match ranks at or above the single-signal
one under the descending sort, all else equal. -/
theorem C7_dual_signal_precedence (wk wv penalty s : ℚ)
    (hw : wk + wv = 1) (hp : penalty < 1) (hs : 0 ≤ s) :
    mergeScore wk wv penalty (some s) (some s) = some s ∧
    mergeScore wk wv penalty (some s) none = some (penalty * s) ∧
    mergeScore wk wv penalty none (some s) = some (penalty * s) ∧
    penalty * s ≤ s := by
  refine ⟨?_, rfl, rfl, ?_⟩
  · show some (wk * s + wv * s) = some s
    rw [← add_mul, hw, one_mul]
  · have h := mul_le_mul_of_nonneg_right hp.le hs
    simpa using h

/-- Witness for C7 at the default weights 0.5/0.5 and penalty 0.8 with raw
score 0.6. -/
theorem C7_dual_signal_precedence_witness :
    (1 : ℚ) / 2 + 1 / 2 = 1 ∧ (4 : ℚ) / 5 < 1 ∧ (0 : ℚ) ≤ 3 / 5 ∧
    (mergeScore (1 / 2) (1 / 2) (4 / 5) (some (3 / 5)) (some (3 / 5))
        = some (3 / 5) ∧
      mergeScore (1 / 2) (1 / 2) (4 / 5) (some (3 / 5)) none
        = some ((4 : ℚ) / 5 * (3 / 5)) ∧
      mergeScore (1 / 2) (1 / 2) (4 / 5) none (some (3 / 5))
        = some ((4 : ℚ) / 5 * (3 / 5)) ∧
      (4 : ℚ) / 5 * (3 / 5) ≤ 3 / 5) :=
  ⟨by norm_num, by norm_num, by norm_num,
    C7_dual_signal_precedence (1 / 2) (1 / 2) (4 / 5) (3 / 5) (by norm_num)
      (by norm_num) (by norm_num)⟩

/-- Conversation lifecycle states (data model section 3). -/
inductive ConvStatus
  | isOpen
  | isClosed
  deriving DecidableEq, Repr

/-- A topically coherent thread (data model section 3). -/
structure Conversation where
  id : Nat
  session_id : Nat
  topic_label : String
  topic_representation : List ℚ
  created_at : Nat
  last_active_at : Nat
  status : ConvStatus
  deriving DecidableEq, Repr

/-- Modelled from the spec: the operations that may touch an existing
conversation record.  The ignore and ask branches mutate nothing; the trust
branch and explicit session end close the currently open conversation (the
new open conversation the trust branch creates is a fresh record, not this
one); the incremental topic-representation update applies only while the
conversation is open. -/
inductive ConvOp
  | ignoreOp
  | askOp
  | trustClose
  | sessionEnd
  | updateRepresentation (v : List ℚ)
  deriving DecidableEq, Repr

/-- How each operation acts on one conversation record. -/
def applyConvOp (c : Conversation) : ConvOp → Conversation
  | .ignoreOp => c
  | .askOp => c
  | .trustClose =>
      if c.status = .isOpen then { c with status := .isClosed } else c
  | .sessionEnd =>
      if c.status = .isOpen then { c with status := .isClosed } else c
  | .updateRepresentation v =>
      if c.status = .isOpen then { c with topic_representation := v } else c

/-- A sequence of operations on one conversation record. -/
def applyConvOps (c : Conversation) (ops : List ConvOp) : Conversation :=
  ops.foldl applyConvOp c

/-- Claim C8: a closed conversation is terminal — no sequence of operations
changes it at all (status, topic_label and topic_representation included) —
and an open conversation can only become closed through the trust branch or
an explicit session end. -/
theorem C8_closed_is_terminal (c : Conversation) (hclosed : c.status = .isClosed)
    (ops : List ConvOp) (d : Conversation) (op : ConvOp)
    (hopen : d.status = .isOpen)
    (hcloses : (applyConvOp d op).status = .isClosed) :
    applyConvOps c ops = c ∧ (op = .trustClose ∨ op = .sessionEnd) := by
  have step : ∀ o, applyConvOp c o = c := by
    intro o
    cases o <;> simp [applyConvOp, hclosed]
  constructor
  · induction ops with
    | nil => rfl
    | cons o ops ih =>
      show applyConvOps (applyConvOp c o) ops = c
      rw [step o]
      exact ih
  · cases op with
    | ignoreOp => simp [applyConvOp, hopen] at hcloses
    | askOp => simp [applyConvOp, hopen] at hcloses
    | updateRepresentation v => simp [applyConvOp, hopen] at hcloses
    | trustClose => exact Or.inl rfl
    | sessionEnd => exact Or.inr rfl

/-- A concrete closed conversation used in the C8 witness. -/
def demoClosedConv : Conversation :=
  { id := 1, session_id := 1, topic_label := "auth",
    topic_representation := [1], created_at := 0, last_active_at := 0,
    status := .isClosed }

/-- A concrete open conversation used in the C8 witness. -/
def demoOpenConv : Conversation :=
  { id := 2, session_id := 1, topic_label := "db",
    topic_representation := [2], created_at := 1, last_active_at := 1,
    status := .isOpen }

/-- Witness for C8: the closed conversation survives an update attempt and a
trust close unchanged, and the open one is closed by the trust branch. -/
theorem C8_closed_is_terminal_witness :
    demoClosedConv.status = .isClosed ∧
    demoOpenConv.status = .isOpen ∧
    (applyConvOp demoOpenConv .trustClose).status = .isClosed ∧
    (applyConvOps demoClosedConv
        [ConvOp.updateRepresentation [9], ConvOp.trustClose] = demoClosedConv ∧
      (ConvOp.trustClose = ConvOp.trustClose
        ∨ ConvOp.trustClose = ConvOp.sessionEnd)) :=
  ⟨rfl, rfl, by decide,
    C8_closed_is_terminal demoClosedConv rfl
      [ConvOp.updateRepresentation [9], ConvOp.trustClose]
      demoOpenConv ConvOp.trustClose rfl (by decide)⟩

/-- Kinds of explicitly saved knowledge (data model section 3). -/
inductive KKind
  | fact
  | decision
  | preference
  | pattern
  deriving DecidableEq, Repr

/-- An explicitly saved memory (data model section 3). -/
structure KnowledgeItem where
  id : Nat
  project_id : Nat
  kind : KKind
  content : String
  tags : List String
  embedding : List ℚ
  created_at : Nat
  superseded_by : Option Nat
  deriving DecidableEq, Repr

/-- Modelled from the spec: the durable KnowledgeItem table of MemoryStore,
keyed by id, most recent write first. -/
abbrev MemStore := List (Nat × KnowledgeItem)

/-- Modelled from the spec: persist one KnowledgeItem row. -/
def saveKnowledgeItem (st : MemStore) (k : KnowledgeItem) : MemStore :=
  (k.id, k) :: st

/-- Modelled from the spec: memory_get returns the one stored entity with the
given id, verbatim. -/
def memory_get (st : MemStore) (i : Nat) : Option KnowledgeItem :=
  (st.find? (fun p => p.1 = i)).map (fun p => p.2)

/-- Claim C9: saving a KnowledgeItem and fetching it back through memory_get
returns the stored entity verbatim — in particular with identical content
and identical tags. -/
theorem C9_knowledge_item_round_trip (st : MemStore) (k : KnowledgeItem) :
    memory_get (saveKnowledgeItem st k) k.id = some k ∧
    (memory_get (saveKnowledgeItem st k) k.id).map KnowledgeItem.content
      = some k.content ∧
    (memory_get (saveKnowledgeItem st k) k.id).map KnowledgeItem.tags
      = some k.tags := by
  have h : memory_get (saveKnowledgeItem st k) k.id = some k := by
    simp [memory_get, saveKnowledgeItem]
  exact ⟨h, by rw [h]; rfl, by rw [h]; rfl⟩

end ClauDEX
